import Mathlib

/-!
# Verification of the Frog biological neural-simulation library

Shallow embedding of the numeric core of the `frog_lib` package
(`core/synapse_models.py`, `core/biological_neuron.py`,
`core/neurotransmitter_diffusion.py`, `plasticity/*.py`,
`architecture/tectum.py`, `bio_frog_agent.py`), with theorems settling the
spec's claims about it.  Python floats are modelled by real numbers;
`np.exp` is `Real.exp`; `np.clip(x, lo, hi)` is `min hi (max lo x)`;
stochastic draws (`np.random.*`) are explicit parameters standing for the
drawn value, constrained by the distribution's support where a claim needs
it.  Python `None` is `Option.none`.
-/

open Real

/-- `np.clip(x, lo, hi) = np.minimum(hi, np.maximum(x, lo))`. -/
def npClip (x lo hi : ℝ) : ℝ := min hi (max lo x)

theorem npClip_le (x lo hi : ℝ) : npClip x lo hi ≤ hi := min_le_left _ _

theorem le_npClip (x lo hi : ℝ) (h : lo ≤ hi) : lo ≤ npClip x lo hi :=
  le_min h (le_max_left _ _)

theorem npClip_eq_self (x lo hi : ℝ) (hlo : lo ≤ x) (hhi : x ≤ hi) :
    npClip x lo hi = x := by
  unfold npClip
  rw [max_eq_right hlo, min_eq_right hhi]

/-! ## `core/synapse_models.py` — `BiologicalSynapse` -/

/-- The mutable and constructor-set fields of `BiologicalSynapse`
(`synapse_models.py`, lines 17–41). -/
structure BiologicalSynapse where
  max_weight : ℝ
  min_weight : ℝ
  weight : ℝ
  stdp_window : ℝ
  stdp_amplitude : ℝ
  facilitation_state : ℝ
  depression_state : ℝ
  facilitation_tau : ℝ
  depression_tau : ℝ
  current_efficacy : ℝ
  dopamine_modulation : ℝ
  serotonin_modulation : ℝ
  acetylcholine_level : ℝ

namespace BiologicalSynapse

/-- `self.weight = initial_weight if initial_weight else np.random.uniform(0.2, 0.8)`
(`synapse_models.py`, line 21): Python truthiness, so any falsy value of
`initial_weight` (`None` or `0.0`) is replaced by the random draw `rnd`. -/
noncomputable def initWeight (initial_weight : Option ℝ) (rnd : ℝ) : ℝ :=
  match initial_weight with
  | none => rnd
  | some w => if w = 0 then rnd else w

/-- `BiologicalSynapse.__init__` (`synapse_models.py`, lines 17–41); `rnd`
stands for the `np.random.uniform(0.2, 0.8)` draw. -/
noncomputable def init (max_weight : ℝ) (initial_weight : Option ℝ)
    (min_weight stdp_window stdp_amplitude rnd : ℝ) : BiologicalSynapse where
  max_weight := max_weight
  min_weight := min_weight
  weight := initWeight initial_weight rnd
  stdp_window := stdp_window
  stdp_amplitude := stdp_amplitude
  facilitation_state := 0.0
  depression_state := 0.0
  facilitation_tau := 50.0
  depression_tau := 200.0
  current_efficacy := 1.0
  dopamine_modulation := 0.5
  serotonin_modulation := 0.5
  acetylcholine_level := 0.3

/-- `BiologicalSynapse.apply_stdp` (`synapse_models.py`, lines 43–62). -/
noncomputable def apply_stdp (s : BiologicalSynapse)
    (presynaptic_spike_time postsynaptic_spike_time : Option ℝ) :
    BiologicalSynapse :=
  match presynaptic_spike_time, postsynaptic_spike_time with
  | some pre, some post =>
    let delta_t := post - pre
    if |delta_t| < s.stdp_window then
      let weight_change :=
        if delta_t > 0 then s.stdp_amplitude * Real.exp (-delta_t / s.stdp_window)
        else -s.stdp_amplitude * Real.exp (delta_t / s.stdp_window)
      let modulation := 0.7 * s.dopamine_modulation + 0.3 * s.serotonin_modulation
      { s with weight := npClip (s.weight + weight_change * modulation)
                 s.min_weight s.max_weight }
    else s
  | _, _ => s

/-- `BiologicalSynapse.apply_short_term_plasticity` (`synapse_models.py`,
lines 64–80). -/
noncomputable def apply_short_term_plasticity (s : BiologicalSynapse)
    (dt : ℝ) (spike : Bool) : BiologicalSynapse :=
  let facilitation_state :=
    if spike then 1.0 else s.facilitation_state * Real.exp (-dt / s.facilitation_tau)
  let depression_state :=
    if spike then 1.0 else s.depression_state * Real.exp (-dt / s.depression_tau)
  { s with
    facilitation_state := facilitation_state
    depression_state := depression_state
    current_efficacy :=
      npClip (1.0 + 0.3 * facilitation_state - 0.5 * depression_state) 0.1 2.0 }

/-- One call of the plasticity interface the claims range over. -/
inductive PlasticityOp where
  | stdp (presynaptic_spike_time postsynaptic_spike_time : Option ℝ)
  | stp (dt : ℝ) (spike : Bool)

/-- Run a finite sequence of `apply_stdp` / `apply_short_term_plasticity`
calls. -/
noncomputable def runOps (s : BiologicalSynapse) : List PlasticityOp → BiologicalSynapse
  | [] => s
  | .stdp pre post :: ops => runOps (s.apply_stdp pre post) ops
  | .stp dt spike :: ops => runOps (s.apply_short_term_plasticity dt spike) ops

/-- The invariant C2 asserts, relative to the construction-time bounds
`m`/`M`: the bound fields are unchanged, the weight is inside them, and the
efficacy is inside `[0.1, 2.0]`. -/
def Inv (m M : ℝ) (s : BiologicalSynapse) : Prop :=
  s.min_weight = m ∧ s.max_weight = M ∧ m ≤ M ∧
  m ≤ s.weight ∧ s.weight ≤ M ∧
  0.1 ≤ s.current_efficacy ∧ s.current_efficacy ≤ 2.0

theorem Inv.apply_stdp {m M : ℝ} {s : BiologicalSynapse}
    (h : Inv m M s) (pre post : Option ℝ) :
    Inv m M (s.apply_stdp pre post) := by
  obtain ⟨h1, h2, h3, h4, h5, h6, h7⟩ := h
  cases pre with
  | none => exact ⟨h1, h2, h3, h4, h5, h6, h7⟩
  | some tp =>
    cases post with
    | none => exact ⟨h1, h2, h3, h4, h5, h6, h7⟩
    | some tq =>
      unfold BiologicalSynapse.apply_stdp
      dsimp only
      split
      · refine ⟨h1, h2, h3, ?_, ?_, h6, h7⟩
        · rw [h1.symm] at *
          exact le_npClip _ _ _ (h1 ▸ h2 ▸ h3)
        · rw [h2.symm] at *
          exact npClip_le _ _ _
      · exact ⟨h1, h2, h3, h4, h5, h6, h7⟩

theorem Inv.apply_short_term_plasticity {m M : ℝ} {s : BiologicalSynapse}
    (h : Inv m M s) (dt : ℝ) (spike : Bool) :
    Inv m M (s.apply_short_term_plasticity dt spike) := by
  obtain ⟨h1, h2, h3, h4, h5, h6, h7⟩ := h
  unfold BiologicalSynapse.apply_short_term_plasticity
  exact ⟨h1, h2, h3, h4, h5, le_npClip _ _ _ (by norm_num), npClip_le _ _ _⟩

theorem Inv.runOps {m M : ℝ} {s : BiologicalSynapse}
    (h : Inv m M s) (ops : List PlasticityOp) :
    Inv m M (s.runOps ops) := by
  induction ops generalizing s with
  | nil => exact h
  | cons op ops ih =>
    cases op with
    | stdp pre post => exact ih (h.apply_stdp pre post)
    | stp dt spike => exact ih (h.apply_short_term_plasticity dt spike)

end BiologicalSynapse

/-- C2: a synapse constructed with `min_weight ≤ max_weight` and an initial
weight inside `[min_weight, max_weight]` keeps, after any finite sequence of
`apply_stdp` and `apply_short_term_plasticity` calls (any spike-time
arguments, any `dt` and spike flags), its weight in
`[min_weight, max_weight]` and its `current_efficacy` in `[0.1, 2.0]`. -/
theorem synapse_weight_efficacy_bounds
    (max_weight min_weight stdp_window stdp_amplitude rnd : ℝ)
    (initial_weight : Option ℝ) (ops : List BiologicalSynapse.PlasticityOp)
    (hmm : min_weight ≤ max_weight)
    (hw1 : min_weight ≤
      (BiologicalSynapse.init max_weight initial_weight min_weight
        stdp_window stdp_amplitude rnd).weight)
    (hw2 : (BiologicalSynapse.init max_weight initial_weight min_weight
        stdp_window stdp_amplitude rnd).weight ≤ max_weight) :
    let final := (BiologicalSynapse.init max_weight initial_weight min_weight
        stdp_window stdp_amplitude rnd).runOps ops
    min_weight ≤ final.weight ∧ final.weight ≤ max_weight ∧
      0.1 ≤ final.current_efficacy ∧ final.current_efficacy ≤ 2.0 := by
  have h : BiologicalSynapse.Inv min_weight max_weight
      (BiologicalSynapse.init max_weight initial_weight min_weight
        stdp_window stdp_amplitude rnd) :=
    ⟨rfl, rfl, hmm, hw1, hw2, by norm_num [BiologicalSynapse.init],
      by norm_num [BiologicalSynapse.init]⟩
  obtain ⟨_, _, _, h4, h5, h6, h7⟩ := h.runOps ops
  exact ⟨by simpa using h4, by simpa using h5, h6, h7⟩

/-- Witness for `synapse_weight_efficacy_bounds`: the default construction
(`max_weight = 1`, `min_weight = 0`, window `50`, amplitude `0.01`, random
draw `0.5`) with an empty call sequence. -/
theorem synapse_weight_efficacy_bounds_witness :
    (0:ℝ) ≤ 1 ∧
      (let final := (BiologicalSynapse.init 1 (some 0.5) 0 50 0.01 0.5).runOps []
       (0:ℝ) ≤ final.weight ∧ final.weight ≤ 1 ∧
         0.1 ≤ final.current_efficacy ∧ final.current_efficacy ≤ 2.0) :=
  ⟨by norm_num,
   synapse_weight_efficacy_bounds 1 0 50 0.01 0.5 (some 0.5) []
     (by norm_num)
     (by norm_num [BiologicalSynapse.init, BiologicalSynapse.initWeight])
     (by norm_num [BiologicalSynapse.init, BiologicalSynapse.initWeight])⟩

/-- C5: full characterization of `apply_stdp`.  With an absent spike time, or
`|Δt| ≥ stdp_window`, the synapse is completely unchanged; strictly inside
the window the weight change is `+amplitude·exp(−Δt/window)` for `Δt > 0`
(potentiation) and `−amplitude·exp(Δt/window)` for `Δt ≤ 0` (depression),
multiplied by `0.7·dopamine_modulation + 0.3·serotonin_modulation`, and the
new weight is clamped into `[min_weight, max_weight]`; no other field
changes. -/
theorem apply_stdp_characterization (s : BiologicalSynapse) (pre post : ℝ) :
    s.apply_stdp none none = s ∧
    s.apply_stdp (some pre) none = s ∧
    s.apply_stdp none (some post) = s ∧
    (s.stdp_window ≤ |post - pre| → s.apply_stdp (some pre) (some post) = s) ∧
    (|post - pre| < s.stdp_window → 0 < post - pre →
      s.apply_stdp (some pre) (some post) =
        { s with
          weight := npClip
            (s.weight + s.stdp_amplitude * Real.exp (-(post - pre) / s.stdp_window) *
              (0.7 * s.dopamine_modulation + 0.3 * s.serotonin_modulation))
            s.min_weight s.max_weight }) ∧
    (|post - pre| < s.stdp_window → post - pre ≤ 0 →
      s.apply_stdp (some pre) (some post) =
        { s with
          weight := npClip
            (s.weight + -s.stdp_amplitude * Real.exp ((post - pre) / s.stdp_window) *
              (0.7 * s.dopamine_modulation + 0.3 * s.serotonin_modulation))
            s.min_weight s.max_weight }) := by
  refine ⟨rfl, rfl, rfl, ?_, ?_, ?_⟩
  · intro h
    unfold BiologicalSynapse.apply_stdp
    dsimp only
    rw [if_neg (not_lt.mpr h)]
  · intro h hpos
    unfold BiologicalSynapse.apply_stdp
    dsimp only
    rw [if_pos h, if_pos hpos]
  · intro h hnonpos
    unfold BiologicalSynapse.apply_stdp
    dsimp only
    rw [if_pos h, if_neg (not_lt.mpr hnonpos)]

/-- C10: the constructor tests `initial_weight` for truthiness, not for
`None`: an explicit initial weight of `0.0` (like `None`) is replaced by the
uniform draw from `[0.2, 0.8)`, and only a nonzero initial weight is honored
exactly. -/
theorem init_zero_weight_not_honored (w rnd : ℝ)
    (h1 : 0.2 ≤ rnd) (h2 : rnd < 0.8) :
    (BiologicalSynapse.init 1.0 (some 0.0) 0.0 50.0 0.01 rnd).weight = rnd ∧
    (BiologicalSynapse.init 1.0 none 0.0 50.0 0.01 rnd).weight = rnd ∧
    0.2 ≤ (BiologicalSynapse.init 1.0 (some 0.0) 0.0 50.0 0.01 rnd).weight ∧
    (BiologicalSynapse.init 1.0 (some 0.0) 0.0 50.0 0.01 rnd).weight < 0.8 ∧
    (w ≠ 0 → (BiologicalSynapse.init 1.0 (some w) 0.0 50.0 0.01 rnd).weight = w) := by
  have hEq : (BiologicalSynapse.init 1.0 (some 0.0) 0.0 50.0 0.01 rnd).weight = rnd := by
    norm_num [BiologicalSynapse.init, BiologicalSynapse.initWeight]
  refine ⟨hEq, rfl, ?_, ?_, ?_⟩
  · rw [hEq]
    exact h1
  · rw [hEq]
    exact h2
  · intro hw
    simp [BiologicalSynapse.init, BiologicalSynapse.initWeight, hw]

/-! ## `core/biological_neuron.py` — the three neuron variants -/

/-- `history.append(v)` followed by `history = history[-1000:]` when the
length exceeds 1000 (`biological_neuron.py`, lines 57–59). -/
def histAppend (history : List ℝ) (v : ℝ) : List ℝ :=
  let h := history ++ [v]
  if h.length > 1000 then h.drop (h.length - 1000) else h

/-- State of `LIFNeuron` (`biological_neuron.py`, lines 18–31). -/
structure LIFNeuron where
  rest_potential : ℝ
  threshold : ℝ
  tau_membrane : ℝ
  tau_refractory : ℝ
  max_firing_rate : ℝ
  membrane_potential : ℝ
  spike_output : ℝ
  refractory_counter : ℝ
  last_spike_time : ℝ
  membrane_potential_history : List ℝ

namespace LIFNeuron

/-- `LIFNeuron.__init__` with the source's default parameters. -/
def init (rest_potential : ℝ := -70.0) (threshold : ℝ := -40.0)
    (tau_membrane : ℝ := 20.0) (tau_refractory : ℝ := 2.0)
    (max_firing_rate : ℝ := 200.0) : LIFNeuron where
  rest_potential := rest_potential
  threshold := threshold
  tau_membrane := tau_membrane
  tau_refractory := tau_refractory
  max_firing_rate := max_firing_rate
  membrane_potential := rest_potential
  spike_output := 0.0
  refractory_counter := 0.0
  last_spike_time := -1000.0
  membrane_potential_history := []

/-- `LIFNeuron.integrate` (`biological_neuron.py`, lines 33–59).  Both exits
of the non-refractory path advance `last_spike_time` by `dt` and append to
the history (on a spike, `last_spike_time` is first zeroed). -/
noncomputable def integrate (n : LIFNeuron) (dt input_current : ℝ) : LIFNeuron :=
  if n.refractory_counter > 0 then
    { n with
      refractory_counter := n.refractory_counter - dt
      spike_output := 0.0
      membrane_potential := n.rest_potential }
  else
    let decay := Real.exp (-dt / n.tau_membrane)
    let v := n.rest_potential + (n.membrane_potential - n.rest_potential) * decay
      + input_current * dt / n.tau_membrane
    if v ≥ n.threshold then
      { n with
        membrane_potential := v
        spike_output := 1.0
        refractory_counter := n.tau_refractory
        last_spike_time := 0.0 + dt
        membrane_potential_history := histAppend n.membrane_potential_history v }
    else
      { n with
        membrane_potential := v
        spike_output := 0.0
        last_spike_time := n.last_spike_time + dt
        membrane_potential_history := histAppend n.membrane_potential_history v }

/-- `LIFNeuron.reset` (`biological_neuron.py`, lines 61–67). -/
def reset (n : LIFNeuron) : LIFNeuron :=
  { n with
    membrane_potential := n.rest_potential
    spike_output := 0.0
    refractory_counter := 0.0
    last_spike_time := -1000.0
    membrane_potential_history := [] }

/-- Run a finite sequence of `integrate (dt, input)` calls. -/
noncomputable def run (n : LIFNeuron) : List (ℝ × ℝ) → LIFNeuron
  | [] => n
  | (dt, input) :: ops => run (n.integrate dt input) ops

theorem integrate_refractory (n : LIFNeuron) (dt input : ℝ)
    (h : n.refractory_counter > 0) :
    n.integrate dt input =
      { n with
        refractory_counter := n.refractory_counter - dt
        spike_output := 0.0
        membrane_potential := n.rest_potential } := by
  unfold integrate
  rw [if_pos h]

theorem integrate_preserves_params (n : LIFNeuron) (dt input : ℝ) :
    (n.integrate dt input).rest_potential = n.rest_potential ∧
    (n.integrate dt input).threshold = n.threshold ∧
    (n.integrate dt input).tau_membrane = n.tau_membrane ∧
    (n.integrate dt input).tau_refractory = n.tau_refractory ∧
    (n.integrate dt input).max_firing_rate = n.max_firing_rate := by
  unfold integrate
  dsimp only
  split
  · exact ⟨rfl, rfl, rfl, rfl, rfl⟩
  · split
    · exact ⟨rfl, rfl, rfl, rfl, rfl⟩
    · exact ⟨rfl, rfl, rfl, rfl, rfl⟩

/-- The parts of the C8 invariant integration actually maintains: spike
output binary, counter bounded below by `-Dmax`. -/
def RefrInv (Dmax : ℝ) (n : LIFNeuron) : Prop :=
  0 ≤ n.tau_refractory ∧ -Dmax ≤ n.refractory_counter ∧
    (n.spike_output = 0 ∨ n.spike_output = 1)

theorem RefrInv.lif_step {Dmax : ℝ} {n : LIFNeuron} (h : RefrInv Dmax n)
    (dt input : ℝ) (hD : 0 ≤ Dmax) (h0 : 0 ≤ dt) (h1 : dt ≤ Dmax) :
    RefrInv Dmax (n.integrate dt input) := by
  obtain ⟨ht, hc, hs⟩ := h
  unfold LIFNeuron.integrate
  dsimp only
  split
  · rename_i hrefr
    exact ⟨ht, by linarith, Or.inl (show (0.0:ℝ) = 0 by norm_num)⟩
  · split
    · exact ⟨ht, by linarith, Or.inr (show (1.0:ℝ) = 1 by norm_num)⟩
    · exact ⟨ht, hc, Or.inl (show (0.0:ℝ) = 0 by norm_num)⟩

theorem RefrInv.lif_run {Dmax : ℝ} {n : LIFNeuron} (h : RefrInv Dmax n)
    (ops : List (ℝ × ℝ)) (hD : 0 ≤ Dmax)
    (hops : ∀ p ∈ ops, 0 ≤ p.1 ∧ p.1 ≤ Dmax) :
    RefrInv Dmax (n.run ops) := by
  induction ops generalizing n with
  | nil => exact h
  | cons p ops ih =>
    obtain ⟨dt, input⟩ := p
    obtain ⟨hdt0, hdt1⟩ := hops (dt, input) (List.mem_cons_self _ ops)
    exact ih (h.lif_step dt input hD hdt0 hdt1)
      (fun q hq => hops q (List.mem_cons_of_mem _ hq))

end LIFNeuron

/-- Witness for `init_zero_weight_not_honored` at `w = 0.7`, `rnd = 0.5`. -/
theorem init_zero_weight_not_honored_witness :
    (BiologicalSynapse.init 1.0 (some 0.0) 0.0 50.0 0.01 0.5).weight = 0.5 ∧
    (BiologicalSynapse.init 1.0 none 0.0 50.0 0.01 0.5).weight = 0.5 ∧
    0.2 ≤ (BiologicalSynapse.init 1.0 (some 0.0) 0.0 50.0 0.01 0.5).weight ∧
    (BiologicalSynapse.init 1.0 (some 0.0) 0.0 50.0 0.01 0.5).weight < 0.8 ∧
    ((0.7:ℝ) ≠ 0 →
      (BiologicalSynapse.init 1.0 (some 0.7) 0.0 50.0 0.01 0.5).weight = 0.7) :=
  init_zero_weight_not_honored 0.7 0.5 (by norm_num) (by norm_num)

/-- State of `PyramidalNeuron` (`biological_neuron.py`, lines 70–79): the
LIF fields plus dendritic state.  `soma_input` is set once in `__init__`
and never written again (line 103 binds a local variable, not the field). -/
structure PyramidalNeuron where
  rest_potential : ℝ
  threshold : ℝ
  tau_membrane : ℝ
  tau_refractory : ℝ
  max_firing_rate : ℝ
  membrane_potential : ℝ
  spike_output : ℝ
  refractory_counter : ℝ
  last_spike_time : ℝ
  membrane_potential_history : List ℝ
  apical_dendrite_input : ℝ
  basal_dendrite_input : ℝ
  soma_input : ℝ
  dendritic_plateau_potential : ℝ
  dendritic_spike_threshold : ℝ

namespace PyramidalNeuron

/-- `PyramidalNeuron.__init__` with the inherited default parameters. -/
def init : PyramidalNeuron where
  rest_potential := -70.0
  threshold := -40.0
  tau_membrane := 20.0
  tau_refractory := 2.0
  max_firing_rate := 200.0
  membrane_potential := -70.0
  spike_output := 0.0
  refractory_counter := 0.0
  last_spike_time := -1000.0
  membrane_potential_history := []
  apical_dendrite_input := 0.0
  basal_dendrite_input := 0.0
  soma_input := 0.0
  dendritic_plateau_potential := 0.0
  dendritic_spike_threshold := -30.0

/-- `PyramidalNeuron.integrate` (`biological_neuron.py`, lines 81–120): the
plateau condition reads the raw `apical_input` argument and the already
low-pass-filtered basal input; no history append. -/
noncomputable def integrate (n : PyramidalNeuron) (dt basal_input : ℝ)
    (apical_input : Option ℝ) : PyramidalNeuron :=
  let apical := apical_input.getD 0.0
  if n.refractory_counter > 0 then
    { n with
      refractory_counter := n.refractory_counter - dt
      spike_output := 0.0
      membrane_potential := n.rest_potential }
  else
    let basal_dendrite_input := 0.9 * n.basal_dendrite_input + 0.1 * basal_input
    let apical_dendrite_input := 0.9 * n.apical_dendrite_input + 0.1 * apical
    let dendritic_plateau_potential :=
      if apical > 0.5 ∧ basal_dendrite_input > 0.3 then 1.0
      else n.dendritic_plateau_potential * Real.exp (-dt / 50.0)
    let soma_drive := basal_input + 0.3 * apical * dendritic_plateau_potential
    let decay := Real.exp (-dt / n.tau_membrane)
    let v := n.rest_potential + (n.membrane_potential - n.rest_potential) * decay
      + soma_drive * dt / n.tau_membrane
    if v ≥ n.threshold then
      { n with
        membrane_potential := v
        spike_output := 1.0
        refractory_counter := n.tau_refractory
        last_spike_time := 0.0 + dt
        basal_dendrite_input := basal_dendrite_input
        apical_dendrite_input := apical_dendrite_input
        dendritic_plateau_potential := dendritic_plateau_potential }
    else
      { n with
        membrane_potential := v
        spike_output := 0.0
        last_spike_time := n.last_spike_time + dt
        basal_dendrite_input := basal_dendrite_input
        apical_dendrite_input := apical_dendrite_input
        dendritic_plateau_potential := dendritic_plateau_potential }

/-- The `reset` a `PyramidalNeuron` inherits from `LIFNeuron` (lines 61–67):
only the five base mutable fields are restored. -/
def reset (n : PyramidalNeuron) : PyramidalNeuron :=
  { n with
    membrane_potential := n.rest_potential
    spike_output := 0.0
    refractory_counter := 0.0
    last_spike_time := -1000.0
    membrane_potential_history := [] }

/-- Run a finite sequence of `integrate (dt, basal, apical)` calls. -/
noncomputable def run (n : PyramidalNeuron) :
    List (ℝ × ℝ × Option ℝ) → PyramidalNeuron
  | [] => n
  | (dt, basal, apical) :: ops => run (n.integrate dt basal apical) ops

/-- The C8 invariant for the dendritic variant. -/
def PyrInv (Dmax : ℝ) (n : PyramidalNeuron) : Prop :=
  0 ≤ n.tau_refractory ∧ -Dmax ≤ n.refractory_counter ∧
    (n.spike_output = 0 ∨ n.spike_output = 1)

theorem PyrInv.pyr_step {Dmax : ℝ} {n : PyramidalNeuron} (h : PyrInv Dmax n)
    (dt basal : ℝ) (apical : Option ℝ) (hD : 0 ≤ Dmax)
    (h0 : 0 ≤ dt) (h1 : dt ≤ Dmax) :
    PyrInv Dmax (n.integrate dt basal apical) := by
  obtain ⟨ht, hc, hs⟩ := h
  unfold PyramidalNeuron.integrate
  dsimp only
  split_ifs
  all_goals
    first
      | exact ⟨ht, by linarith, Or.inr (show (1.0:ℝ) = 1 by norm_num)⟩
      | exact ⟨ht, by linarith, Or.inl (show (0.0:ℝ) = 0 by norm_num)⟩
      | exact ⟨ht, hc, Or.inl (show (0.0:ℝ) = 0 by norm_num)⟩

theorem PyrInv.pyr_run {Dmax : ℝ} {n : PyramidalNeuron} (h : PyrInv Dmax n)
    (ops : List (ℝ × ℝ × Option ℝ)) (hD : 0 ≤ Dmax)
    (hops : ∀ p ∈ ops, 0 ≤ p.1 ∧ p.1 ≤ Dmax) :
    PyrInv Dmax (n.run ops) := by
  induction ops generalizing n with
  | nil => exact h
  | cons p ops ih =>
    obtain ⟨dt, basal, apical⟩ := p
    obtain ⟨hdt0, hdt1⟩ := hops (dt, basal, apical) (List.mem_cons_self _ ops)
    exact ih (h.pyr_step dt basal apical hD hdt0 hdt1)
      (fun q hq => hops q (List.mem_cons_of_mem _ hq))

end PyramidalNeuron

/-- State of `FastSpikingInterneuron` (`biological_neuron.py`, lines
123–130): the LIF fields plus the adaptation current. -/
structure FastSpikingInterneuron where
  rest_potential : ℝ
  threshold : ℝ
  tau_membrane : ℝ
  tau_refractory : ℝ
  max_firing_rate : ℝ
  membrane_potential : ℝ
  spike_output : ℝ
  refractory_counter : ℝ
  last_spike_time : ℝ
  membrane_potential_history : List ℝ
  adaptation_current : ℝ
  adaptation_tau : ℝ
  spike_count : ℕ

namespace FastSpikingInterneuron

/-- `FastSpikingInterneuron.__init__`: `tau_membrane = 5.0`,
`tau_refractory = 1.0`, other parameters at the inherited defaults. -/
def init : FastSpikingInterneuron where
  rest_potential := -70.0
  threshold := -40.0
  tau_membrane := 5.0
  tau_refractory := 1.0
  max_firing_rate := 200.0
  membrane_potential := -70.0
  spike_output := 0.0
  refractory_counter := 0.0
  last_spike_time := -1000.0
  membrane_potential_history := []
  adaptation_current := 0.0
  adaptation_tau := 100.0
  spike_count := 0

/-- `FastSpikingInterneuron.integrate` (`biological_neuron.py`, lines
132–164): the adaptation current decays first, is subtracted from the
drive, and jumps by `5.0` on a spike; no history append. -/
noncomputable def integrate (n : FastSpikingInterneuron)
    (dt input_current : ℝ) : FastSpikingInterneuron :=
  if n.refractory_counter > 0 then
    { n with
      refractory_counter := n.refractory_counter - dt
      spike_output := 0.0
      membrane_potential := n.rest_potential }
  else
    let adaptation_current := n.adaptation_current * Real.exp (-dt / n.adaptation_tau)
    let decay_soma := Real.exp (-dt / n.tau_membrane)
    let v := n.rest_potential + (n.membrane_potential - n.rest_potential) * decay_soma
      + (input_current - 0.5 * adaptation_current) * dt / n.tau_membrane
    if v ≥ n.threshold then
      { n with
        membrane_potential := v
        spike_output := 1.0
        refractory_counter := n.tau_refractory
        last_spike_time := 0.0 + dt
        adaptation_current := adaptation_current + 5.0
        spike_count := n.spike_count + 1 }
    else
      { n with
        membrane_potential := v
        spike_output := 0.0
        last_spike_time := n.last_spike_time + dt
        adaptation_current := adaptation_current }

/-- The `reset` a `FastSpikingInterneuron` inherits from `LIFNeuron`: only
the five base mutable fields are restored — `adaptation_current` and
`spike_count` are left as they are. -/
def reset (n : FastSpikingInterneuron) : FastSpikingInterneuron :=
  { n with
    membrane_potential := n.rest_potential
    spike_output := 0.0
    refractory_counter := 0.0
    last_spike_time := -1000.0
    membrane_potential_history := [] }

/-- Run a finite sequence of `integrate (dt, input)` calls. -/
noncomputable def run (n : FastSpikingInterneuron) :
    List (ℝ × ℝ) → FastSpikingInterneuron
  | [] => n
  | (dt, input) :: ops => run (n.integrate dt input) ops

/-- The C8 invariant for the fast-adapting variant. -/
def FsiInv (Dmax : ℝ) (n : FastSpikingInterneuron) : Prop :=
  0 ≤ n.tau_refractory ∧ -Dmax ≤ n.refractory_counter ∧
    (n.spike_output = 0 ∨ n.spike_output = 1)

theorem FsiInv.fsi_step {Dmax : ℝ} {n : FastSpikingInterneuron}
    (h : FsiInv Dmax n) (dt input : ℝ) (hD : 0 ≤ Dmax)
    (h0 : 0 ≤ dt) (h1 : dt ≤ Dmax) :
    FsiInv Dmax (n.integrate dt input) := by
  obtain ⟨ht, hc, hs⟩ := h
  unfold FastSpikingInterneuron.integrate
  dsimp only
  split
  · rename_i hrefr
    exact ⟨ht, by linarith, Or.inl (show (0.0:ℝ) = 0 by norm_num)⟩
  · split
    · exact ⟨ht, by linarith, Or.inr (show (1.0:ℝ) = 1 by norm_num)⟩
    · exact ⟨ht, hc, Or.inl (show (0.0:ℝ) = 0 by norm_num)⟩

theorem FsiInv.fsi_run {Dmax : ℝ} {n : FastSpikingInterneuron} (h : FsiInv Dmax n)
    (ops : List (ℝ × ℝ)) (hD : 0 ≤ Dmax)
    (hops : ∀ p ∈ ops, 0 ≤ p.1 ∧ p.1 ≤ Dmax) :
    FsiInv Dmax (n.run ops) := by
  induction ops generalizing n with
  | nil => exact h
  | cons p ops ih =>
    obtain ⟨dt, input⟩ := p
    obtain ⟨hdt0, hdt1⟩ := hops (dt, input) (List.mem_cons_self _ ops)
    exact ih (h.fsi_step dt input hD hdt0 hdt1)
      (fun q hq => hops q (List.mem_cons_of_mem _ hq))

end FastSpikingInterneuron

/-- A freshly default-constructed `LIFNeuron()`. -/
def LIFNeuron.fresh : LIFNeuron := LIFNeuron.init

theorem lif_integrate_spike (n : LIFNeuron) (dt input : ℝ)
    (h0 : ¬ n.refractory_counter > 0)
    (hth : n.rest_potential +
        (n.membrane_potential - n.rest_potential) * Real.exp (-dt / n.tau_membrane) +
        input * dt / n.tau_membrane ≥ n.threshold) :
    (n.integrate dt input).refractory_counter = n.tau_refractory ∧
    (n.integrate dt input).spike_output = 1.0 := by
  unfold LIFNeuron.integrate
  rw [if_neg h0]
  dsimp only
  rw [if_pos hth]
  exact ⟨rfl, rfl⟩

/-- C8 counterexample: the refractory countdown is not always `≥ 0`.  A
fresh `LIFNeuron()` driven to a spike (`integrate(1, 10000)` sets the
countdown to `tau_refractory = 2`) and then stepped with `dt = 5` has
countdown `2 - 5 = -3 < 0`: `integrate` subtracts the full `dt` from a
positive countdown without flooring at zero. -/
theorem lif_refractory_counter_negative :
    ((LIFNeuron.fresh.integrate 1 10000).integrate 5 0).refractory_counter = -3 ∧
    ¬ (0 ≤ ((LIFNeuron.fresh.integrate 1 10000).integrate 5 0).refractory_counter) := by
  have h1 := (lif_integrate_spike LIFNeuron.fresh 1 10000
    (by norm_num [LIFNeuron.fresh, LIFNeuron.init])
    (by norm_num [LIFNeuron.fresh, LIFNeuron.init])).1
  have hTau : LIFNeuron.fresh.tau_refractory = 2 := by
    norm_num [LIFNeuron.fresh, LIFNeuron.init]
  have h2 : ((LIFNeuron.fresh.integrate 1 10000).integrate 5 0).refractory_counter =
      (LIFNeuron.fresh.integrate 1 10000).refractory_counter - 5 := by
    rw [LIFNeuron.integrate_refractory _ 5 0 (by rw [h1, hTau]; norm_num)]
  constructor
  · rw [h2, h1, hTau]
    norm_num
  · rw [h2, h1, hTau]
    norm_num

/-- C8 amended: for each neuron variant, the spike output is always in
`{0, 1}` and a positive countdown on entry pins the exit potential to the
resting value (with output 0); the countdown, however, is only bounded
below by `-Dmax` for steps `dt ∈ [0, Dmax]` — it goes negative whenever
`dt` exceeds the remaining countdown, instead of staying `≥ 0`. -/
theorem neuron_refractory_spike_invariants :
    (∀ (n : LIFNeuron) (dt input : ℝ), n.refractory_counter > 0 →
      (n.integrate dt input).membrane_potential = n.rest_potential ∧
      (n.integrate dt input).spike_output = 0 ∧
      (n.integrate dt input).refractory_counter = n.refractory_counter - dt) ∧
    (∀ (n : PyramidalNeuron) (dt basal : ℝ) (apical : Option ℝ),
      n.refractory_counter > 0 →
      (n.integrate dt basal apical).membrane_potential = n.rest_potential ∧
      (n.integrate dt basal apical).spike_output = 0 ∧
      (n.integrate dt basal apical).refractory_counter = n.refractory_counter - dt) ∧
    (∀ (n : FastSpikingInterneuron) (dt input : ℝ), n.refractory_counter > 0 →
      (n.integrate dt input).membrane_potential = n.rest_potential ∧
      (n.integrate dt input).spike_output = 0 ∧
      (n.integrate dt input).refractory_counter = n.refractory_counter - dt) ∧
    (∀ (Dmax : ℝ) (ops : List (ℝ × ℝ)), 0 ≤ Dmax →
      (∀ p ∈ ops, 0 ≤ p.1 ∧ p.1 ≤ Dmax) →
      -Dmax ≤ (LIFNeuron.fresh.run ops).refractory_counter ∧
      ((LIFNeuron.fresh.run ops).spike_output = 0 ∨
        (LIFNeuron.fresh.run ops).spike_output = 1)) ∧
    (∀ (Dmax : ℝ) (ops : List (ℝ × ℝ × Option ℝ)), 0 ≤ Dmax →
      (∀ p ∈ ops, 0 ≤ p.1 ∧ p.1 ≤ Dmax) →
      -Dmax ≤ (PyramidalNeuron.init.run ops).refractory_counter ∧
      ((PyramidalNeuron.init.run ops).spike_output = 0 ∨
        (PyramidalNeuron.init.run ops).spike_output = 1)) ∧
    (∀ (Dmax : ℝ) (ops : List (ℝ × ℝ)), 0 ≤ Dmax →
      (∀ p ∈ ops, 0 ≤ p.1 ∧ p.1 ≤ Dmax) →
      -Dmax ≤ (FastSpikingInterneuron.init.run ops).refractory_counter ∧
      ((FastSpikingInterneuron.init.run ops).spike_output = 0 ∨
        (FastSpikingInterneuron.init.run ops).spike_output = 1)) := by
  refine ⟨?_, ?_, ?_, ?_, ?_, ?_⟩
  · intro n dt input h
    rw [LIFNeuron.integrate_refractory n dt input h]
    exact ⟨rfl, by norm_num, rfl⟩
  · intro n dt basal apical h
    unfold PyramidalNeuron.integrate
    rw [if_pos h]
    exact ⟨rfl, by norm_num, rfl⟩
  · intro n dt input h
    unfold FastSpikingInterneuron.integrate
    rw [if_pos h]
    exact ⟨rfl, by norm_num, rfl⟩
  · intro Dmax ops hD hops
    have h0 : LIFNeuron.RefrInv Dmax LIFNeuron.fresh :=
      ⟨by norm_num [LIFNeuron.fresh, LIFNeuron.init], by
        have : LIFNeuron.fresh.refractory_counter = 0 := by
          norm_num [LIFNeuron.fresh, LIFNeuron.init]
        rw [this]; linarith,
        Or.inl (by norm_num [LIFNeuron.fresh, LIFNeuron.init])⟩
    obtain ⟨_, hc, hs⟩ := h0.lif_run ops hD hops
    exact ⟨hc, hs⟩
  · intro Dmax ops hD hops
    have h0 : PyramidalNeuron.PyrInv Dmax PyramidalNeuron.init :=
      ⟨by norm_num [PyramidalNeuron.init], by
        have : PyramidalNeuron.init.refractory_counter = 0 := by
          norm_num [PyramidalNeuron.init]
        rw [this]; linarith,
        Or.inl (by norm_num [PyramidalNeuron.init])⟩
    obtain ⟨_, hc, hs⟩ := h0.pyr_run ops hD hops
    exact ⟨hc, hs⟩
  · intro Dmax ops hD hops
    have h0 : FastSpikingInterneuron.FsiInv Dmax FastSpikingInterneuron.init :=
      ⟨by norm_num [FastSpikingInterneuron.init], by
        have : FastSpikingInterneuron.init.refractory_counter = 0 := by
          norm_num [FastSpikingInterneuron.init]
        rw [this]; linarith,
        Or.inl (by norm_num [FastSpikingInterneuron.init])⟩
    obtain ⟨_, hc, hs⟩ := h0.fsi_run ops hD hops
    exact ⟨hc, hs⟩

/-! ## `plasticity/functional_plasticity.py` — `FunctionalPlasticityManager` -/

/-- `history[-100:]`. -/
def lastSlice (k : ℕ) (l : List ℝ) : List ℝ := l.drop (l.length - k)

/-- `np.mean` of a list. -/
noncomputable def npMean (l : List ℝ) : ℝ := l.sum / l.length

namespace FunctionalPlasticityManager

/-- `self.homeostatic_target = 0.3` (`functional_plasticity.py`, line 50). -/
def homeostatic_target : ℝ := 0.3

/-- `self.homeostatic_learning_rate = 0.0001` (line 51). -/
def homeostatic_learning_rate : ℝ := 0.0001

/-- The per-neuron recent activity computed in `apply_homeostatic_scaling`
(`functional_plasticity.py`, lines 62–67). -/
noncomputable def recent_activity (neuron : LIFNeuron) : ℝ :=
  if neuron.membrane_potential_history.length > 0 then
    npMean ((lastSlice 100 neuron.membrane_potential_history).map
      (fun v => if v > neuron.threshold then (1:ℝ) else 0))
  else 0.0

/-- The per-neuron scaling factor computed in `apply_homeostatic_scaling`
(lines 69–76). -/
noncomputable def scaling_factor (neuron : LIFNeuron) (dt : ℝ) : ℝ :=
  if recent_activity neuron > homeostatic_target * 1.5 then
    1.0 - homeostatic_learning_rate * dt
  else if recent_activity neuron < homeostatic_target * 0.5 then
    1.0 + homeostatic_learning_rate * dt
  else 1.0

/-- `FunctionalPlasticityManager.apply_homeostatic_scaling`
(`functional_plasticity.py`, lines 56–76): for each neuron the scaling
factor is computed and then dropped — the loop body binds only the local
variables `recent_activity` and `scaling_factor` and assigns no attribute;
no synapse is even passed in. -/
noncomputable def apply_homeostatic_scaling (synaptic_scaling_enabled : Bool)
    (neurons : List LIFNeuron) (dt : ℝ) : List LIFNeuron :=
  if !synaptic_scaling_enabled then neurons
  else
    neurons.map fun neuron =>
      let _ := scaling_factor neuron dt
      neuron

end FunctionalPlasticityManager

/-- C7: `apply_homeostatic_scaling` computes a per-neuron scaling factor
from recent activity but applies it to nothing: the neuron list (every
field of every neuron) is returned exactly as it came in, for every enabled
flag, neuron list and `dt`; synapse weights are untouched a fortiori, since
no synapse is passed to the routine. -/
theorem homeostatic_scaling_is_noop :
    ∀ (synaptic_scaling_enabled : Bool) (neurons : List LIFNeuron) (dt : ℝ),
      FunctionalPlasticityManager.apply_homeostatic_scaling
        synaptic_scaling_enabled neurons dt = neurons := by
  intro enabled neurons dt
  unfold FunctionalPlasticityManager.apply_homeostatic_scaling
  split
  · rfl
  · exact List.map_id' neurons

/-! ## `plasticity/structural_plasticity.py` — `StructuralPlasticityManager` -/

namespace StructuralPlasticityManager

/-- `self.synapse_creation_threshold = 0.1`. -/
def synapse_creation_threshold : ℝ := 0.1

/-- `self.synapse_elimination_threshold = 0.01`. -/
def synapse_elimination_threshold : ℝ := 0.01

/-- `self.synapse_creation_rate = 0.0001`. -/
def synapse_creation_rate : ℝ := 0.0001

/-- `self.synapse_elimination_rate = 0.00005`. -/
def synapse_elimination_rate : ℝ := 0.00005

/-- The per-synapse body of `update_structure` (`structural_plasticity.py`,
lines 24–38); `r` stands for the `np.random.random()` draw in `[0, 1)`.
Returns the updated synapse, whether a creation event was counted and
whether an elimination event was counted. -/
noncomputable def update_synapse (synapse : BiologicalSynapse) (dt r : ℝ) :
    BiologicalSynapse × Bool × Bool :=
  if synapse.weight > synapse_creation_threshold then
    ({ synapse with
       weight := min (synapse.weight + synapse_creation_rate * synapse.weight * dt)
         synapse.max_weight }, true, false)
  else if synapse.weight < synapse_elimination_threshold then
    if r < synapse_elimination_rate * dt then
      ({ synapse with weight := 0.0 }, false, true)
    else (synapse, false, false)
  else (synapse, false, false)

end StructuralPlasticityManager

/-- C3: in one `update_structure` pass each synapse takes at most one
branch and the branches are mutually exclusive: above the creation
threshold `0.1` the weight grows by `creation_rate·weight·dt` capped at
`max_weight`; strictly below the elimination threshold `0.01` the weight
may (when the draw `r` lands under `elimination_rate·dt`) be set to exactly
`0.0` with an elimination counted; in the dead zone `[0.01, 0.1]` the
synapse is left unchanged; no synapse is both grown and zeroed. -/
theorem update_structure_branches (s : BiologicalSynapse) (dt r : ℝ) :
    (¬ ((StructuralPlasticityManager.update_synapse s dt r).2.1 = true ∧
        (StructuralPlasticityManager.update_synapse s dt r).2.2 = true)) ∧
    (s.weight > 0.1 →
      StructuralPlasticityManager.update_synapse s dt r =
        ({ s with weight := min (s.weight + 0.0001 * s.weight * dt) s.max_weight },
          true, false)) ∧
    (0.01 ≤ s.weight → s.weight ≤ 0.1 →
      StructuralPlasticityManager.update_synapse s dt r = (s, false, false)) ∧
    (s.weight < 0.01 → r < 0.00005 * dt →
      StructuralPlasticityManager.update_synapse s dt r =
        ({ s with weight := 0.0 }, false, true)) ∧
    (s.weight < 0.01 → ¬ r < 0.00005 * dt →
      StructuralPlasticityManager.update_synapse s dt r = (s, false, false)) := by
  unfold StructuralPlasticityManager.update_synapse
  unfold StructuralPlasticityManager.synapse_creation_threshold
    StructuralPlasticityManager.synapse_elimination_threshold
    StructuralPlasticityManager.synapse_creation_rate
    StructuralPlasticityManager.synapse_elimination_rate
  refine ⟨?_, ?_, ?_, ?_, ?_⟩
  · split_ifs <;> simp
  · intro h
    rw [if_pos h]
  · intro h1 h2
    rw [if_neg (not_lt.mpr h2), if_neg (not_lt.mpr h1)]
  · intro h1 h2
    rw [if_neg (not_lt.mpr (by linarith)), if_pos h1, if_pos h2]
  · intro h1 h2
    rw [if_neg (not_lt.mpr (by linarith)), if_pos h1, if_neg h2]

/-! ## `bio_frog_agent.py` — `BioFrogBrain.apply_plasticity` (step 6) -/

/-- The methods the class `FunctionalPlasticityManager` defines
(`functional_plasticity.py`, lines 45–95). -/
def functional_plasticity_methods : List String :=
  ["__init__", "apply_homeostatic_scaling", "apply_intrinsic_plasticity"]

/-- The methods the class `StructuralPlasticityManager` defines
(`structural_plasticity.py`, lines 10–38). -/
def structural_plasticity_methods : List String :=
  ["__init__", "update_structure"]

/-- Python attribute lookup followed by a call: `Except.error` models the
`AttributeError` raised when the class defines no such method. -/
def getattrCall (methods : List String) (name : String) : Except String Unit :=
  if name ∈ methods then Except.ok () else Except.error "AttributeError"

/-- `BioFrogBrain.apply_plasticity` (`bio_frog_agent.py`, lines 220–237):
gated on a non-empty synapse list, it calls
`self.functional_plasticity.update()` and then
`self.structural_plasticity.update_structure(...)`. -/
def apply_plasticity (num_synapses : ℕ) : Except String Unit := do
  (if num_synapses > 0 then getattrCall functional_plasticity_methods "update"
   else Except.ok ())
  (if num_synapses > 0 then
     getattrCall structural_plasticity_methods "update_structure"
   else Except.ok ())

/-- C6 (code bug): step 6 of the tick raises whenever the synapse list is
non-empty — `apply_plasticity` calls `functional_plasticity.update()`, a
method `FunctionalPlasticityManager` does not define, so the call is an
`AttributeError`; with an empty synapse list both calls are skipped and the
step returns normally. -/
theorem apply_plasticity_raises_attribute_error :
    apply_plasticity 0 = Except.ok () ∧
    apply_plasticity 1 = Except.error "AttributeError" ∧
    ("update" ∈ functional_plasticity_methods) = False := by
  refine ⟨rfl, rfl, by simp [functional_plasticity_methods]⟩

/-! ## `bio_frog_agent.py` — the developmental (juvenile) state -/

/-- The developmental substate of `BioFrogBrain` (`bio_frog_agent.py`,
lines 80–84): the juvenile flag, the age counter and the fixed duration. -/
structure DevState where
  is_juvenile : Bool
  juvenile_age : ℕ
  juvenile_duration : ℕ

namespace DevState

/-- The juvenile fields as `BioFrogBrain.__init__` sets them:
`is_juvenile = juvenile_mode`, `juvenile_duration = 5000`,
`juvenile_age = 0`. -/
def init (juvenile_mode : Bool) : DevState :=
  ⟨juvenile_mode, 0, 5000⟩

/-- The developmental part of one `BioFrogBrain.update` tick
(`bio_frog_agent.py`, lines 267–272): the age increments and the flag turns
off once `juvenile_age ≥ juvenile_duration`.  The `reward` argument is
threaded through because the claim quantifies over reward sequences: no
line of `update` other than 267–272 writes `is_juvenile` or `juvenile_age`,
so the tick's developmental effect depends on nothing else. -/
def update (s : DevState) (reward : ℝ) : DevState :=
  let juvenile_age := s.juvenile_age + 1
  { s with
    juvenile_age := juvenile_age
    is_juvenile :=
      if s.is_juvenile ∧ juvenile_age ≥ s.juvenile_duration then false
      else s.is_juvenile }

/-- Run one `update` per reward in the list. -/
def runRewards (s : DevState) : List ℝ → DevState
  | [] => s
  | r :: rs => runRewards (s.update r) rs

theorem update_step_formula (D k : ℕ) (r : ℝ) :
    DevState.update ⟨decide (k < D), k, D⟩ r = ⟨decide (k + 1 < D), k + 1, D⟩ := by
  unfold DevState.update
  by_cases h1 : D ≤ k + 1 <;> by_cases h2 : k < D <;>
    simp [h1, h2] <;> omega

theorem runRewards_formula (D k : ℕ) (rs : List ℝ) :
    DevState.runRewards ⟨decide (k < D), k, D⟩ rs =
      ⟨decide (k + rs.length < D), k + rs.length, D⟩ := by
  induction rs generalizing k with
  | nil => simp [runRewards]
  | cons r rs ih =>
    show DevState.runRewards (DevState.update ⟨decide (k < D), k, D⟩ r) rs = _
    rw [update_step_formula]
    rw [ih (k + 1)]
    simp only [List.length_cons]
    congr 1
    · simp only [decide_eq_decide]
      omega
    · omega

theorem update_first_step (D : ℕ) (r : ℝ) :
    DevState.update ⟨true, 0, D⟩ r = ⟨decide (1 < D), 1, D⟩ := by
  unfold DevState.update
  by_cases h1 : D ≤ 1 <;> simp [h1] <;> omega

end DevState

/-- C4: the juvenile→adult transition is a one-way, exact-boundary event.
Starting from `juvenile_mode = true` with duration `D`, the flag reported
after the `n`-th `update` (so at age `n ≥ 1`) is true exactly when
`n < D`, whatever the rewards were; once the flag is false, no sequence of
updates ever makes it true again; and `BioFrogBrain.__init__` starts at
`⟨juvenile_mode, age 0, duration 5000⟩`. -/
theorem juvenile_one_way_exact_boundary :
    (∀ (D : ℕ) (rs : List ℝ), rs ≠ [] →
      ((DevState.runRewards ⟨true, 0, D⟩ rs).is_juvenile = true ↔ rs.length < D) ∧
      (DevState.runRewards ⟨true, 0, D⟩ rs).juvenile_age = rs.length) ∧
    (∀ (s : DevState) (rs : List ℝ), s.is_juvenile = false →
      (DevState.runRewards s rs).is_juvenile = false) ∧
    DevState.init true = ⟨true, 0, 5000⟩ := by
  refine ⟨?_, ?_, rfl⟩
  · intro D rs hne
    cases rs with
    | nil => exact absurd rfl hne
    | cons r rs =>
      show ((DevState.runRewards (DevState.update ⟨true, 0, D⟩ r) rs).is_juvenile
            = true ↔ (r :: rs).length < D) ∧
          (DevState.runRewards (DevState.update ⟨true, 0, D⟩ r) rs).juvenile_age
            = (r :: rs).length
      rw [DevState.update_first_step, DevState.runRewards_formula]
      constructor
      · dsimp only
        simp only [decide_eq_true_eq, List.length_cons]
        omega
      · dsimp only
        simp only [List.length_cons]
        omega
  · intro s rs h
    induction rs generalizing s with
    | nil => exact h
    | cons r rs ih =>
      show (DevState.runRewards (s.update r) rs).is_juvenile = false
      apply ih
      unfold DevState.update
      simp [h]

/-- Witness for `juvenile_one_way_exact_boundary`: `D = 5000`, one update
with reward 0, and the one-way part from an adult state. -/
theorem juvenile_one_way_witness :
    (((DevState.runRewards ⟨true, 0, 5000⟩ [0]).is_juvenile = true ↔
        ([ (0:ℝ) ].length < 5000)) ∧
      (DevState.runRewards ⟨true, 0, 5000⟩ [0]).juvenile_age = [ (0:ℝ) ].length) ∧
    (DevState.runRewards ⟨false, 7, 5⟩ [0]).is_juvenile = false :=
  ⟨(juvenile_one_way_exact_boundary.1 5000 [0] (by simp)),
   (juvenile_one_way_exact_boundary.2.1 ⟨false, 7, 5⟩ [0] rfl)⟩

/-! ## `core/neurotransmitter_diffusion.py` — `NeurotransmitterDiffusion` -/

namespace NeurotransmitterDiffusion

/-- A square concentration grid (`np.zeros((grid_size, grid_size))`). -/
def Grid (n : ℕ) : Type := Fin n → Fin n → ℝ

/-- `self.dopamine_baseline = 0.3` (`neurotransmitter_diffusion.py`, line 31). -/
def dopamine_baseline : ℝ := 0.3

/-- `self.serotonin_baseline = 0.3` (line 32). -/
def serotonin_baseline : ℝ := 0.3

/-- `self.acetylcholine_baseline = 0.2` (line 33). -/
def acetylcholine_baseline : ℝ := 0.2

/-- `self.decay_tau = 500.0` (line 41). -/
def decay_tau : ℝ := 500.0

/-- `_create_diffusion_kernel` before normalization (lines 44–53):
`exp(-(x² + y²) / (2σ²))` with `x = i - 1`, `y = j - 1`, `σ = 1`. -/
noncomputable def diffusion_kernel_raw (i j : Fin 3) : ℝ :=
  Real.exp (-((((i:ℕ):ℝ) - 1)^2 + (((j:ℕ):ℝ) - 1)^2) / (2 * 1.0^2))

/-- `kernel.sum()` (line 54). -/
noncomputable def diffusion_kernel_sum : ℝ :=
  ∑ i : Fin 3, ∑ j : Fin 3, diffusion_kernel_raw i j

/-- The normalized kernel `kernel /= kernel.sum()` (line 54). -/
noncomputable def diffusion_kernel (i j : Fin 3) : ℝ :=
  diffusion_kernel_raw i j / diffusion_kernel_sum

/-- Out-of-range reads return the fill value `0.0`
(`boundary='fill', fillvalue=0.0`). -/
noncomputable def gridGet {n : ℕ} (m : Grid n) (x y : ℤ) : ℝ :=
  if hx : 0 ≤ x ∧ x < (n:ℤ) then
    if hy : 0 ≤ y ∧ y < (n:ℤ) then m ⟨x.toNat, by omega⟩ ⟨y.toNat, by omega⟩
    else 0
  else 0

/-- `scipy.signal.convolve2d(map, kernel, mode='same', boundary='fill',
fillvalue=0.0)` with the 3×3 kernel (true convolution, kernel flipped; the
Gaussian kernel is symmetric so this equals correlation). -/
noncomputable def convolve2d_same_fill {n : ℕ} (m : Grid n) : Grid n :=
  fun i j => ∑ a : Fin 3, ∑ b : Fin 3,
    diffusion_kernel a b *
      gridGet m ((i:ℤ) - (((a:ℕ):ℤ) - 1)) ((j:ℤ) - (((b:ℕ):ℤ) - 1))

/-- `_apply_diffusion` (`neurotransmitter_diffusion.py`, lines 75–90):
`scipy_available` selects the `try` branch (convolution) or the bare
`except` fallback (`diffused = concentration_map.copy()`).  Note the decay
target: the source relaxes EVERY map toward `self.dopamine_baseline` —
`serotonin_baseline` and `acetylcholine_baseline` are never read here. -/
noncomputable def apply_diffusion {n : ℕ} (scipy_available : Bool)
    (concentration_map : Grid n) (dt : ℝ) : Grid n :=
  let diffused :=
    if scipy_available then convolve2d_same_fill concentration_map
    else concentration_map
  fun i j =>
    npClip (dopamine_baseline +
      (diffused i j - dopamine_baseline) * Real.exp (-dt / decay_tau)) 0 1

/-- The three concentration maps of `NeurotransmitterDiffusion`. -/
structure DiffusionState (n : ℕ) where
  dopamine_map : Grid n
  serotonin_map : Grid n
  acetylcholine_map : Grid n

/-- `__init__` (lines 26–28): all maps are `np.zeros`. -/
def initState (n : ℕ) : DiffusionState n :=
  ⟨fun _ _ => 0, fun _ _ => 0, fun _ _ => 0⟩

/-- `diffuse(dt)` (lines 92–96): `_apply_diffusion` on each of the three
maps. -/
noncomputable def DiffusionState.diffuse {n : ℕ} (st : DiffusionState n)
    (scipy_available : Bool) (dt : ℝ) : DiffusionState n :=
  ⟨apply_diffusion scipy_available st.dopamine_map dt,
   apply_diffusion scipy_available st.serotonin_map dt,
   apply_diffusion scipy_available st.acetylcholine_map dt⟩

/-- `reset()` (lines 120–124): each map is filled with its own baseline. -/
def DiffusionState.reset {n : ℕ} (st : DiffusionState n) : DiffusionState n :=
  ⟨fun _ _ => dopamine_baseline,
   fun _ _ => serotonin_baseline,
   fun _ _ => acetylcholine_baseline⟩

end NeurotransmitterDiffusion

open NeurotransmitterDiffusion in
/-- C1 (code bug): with zero release events, `diffuse(dt)` relaxes the
acetylcholine map toward the DOPAMINE baseline `0.3`, not toward the
declared `acetylcholine_baseline = 0.2`: `_apply_diffusion` hard-codes
`self.dopamine_baseline` for every map.  Starting from the acetylcholine
map uniformly at its own baseline `0.2` (decay-only fallback path,
`dt = 500`), every cell moves strictly away from `0.2` up to
`0.3 − 0.1·e⁻¹`. -/
theorem acetylcholine_relaxes_to_dopamine_baseline (n : ℕ) (i j : Fin n) :
    ((DiffusionState.mk (n := n) (fun _ _ => dopamine_baseline)
        (fun _ _ => serotonin_baseline)
        (fun _ _ => acetylcholine_baseline)).diffuse false 500).acetylcholine_map i j
      = 0.3 - 0.1 * Real.exp (-1) ∧
    acetylcholine_baseline <
      ((DiffusionState.mk (n := n) (fun _ _ => dopamine_baseline)
        (fun _ _ => serotonin_baseline)
        (fun _ _ => acetylcholine_baseline)).diffuse false 500).acetylcholine_map i j ∧
    ((DiffusionState.mk (n := n) (fun _ _ => dopamine_baseline)
        (fun _ _ => serotonin_baseline)
        (fun _ _ => acetylcholine_baseline)).diffuse false 500).acetylcholine_map i j
      ≠ acetylcholine_baseline := by
  have he0 : (0:ℝ) < Real.exp (-1) := Real.exp_pos _
  have he1 : Real.exp (-1:ℝ) < 1 := Real.exp_lt_one_iff.mpr (by norm_num)
  have harg : -(500:ℝ) / decay_tau = -1 := by
    norm_num [decay_tau]
  have hval : ((DiffusionState.mk (n := n) (fun _ _ => dopamine_baseline)
        (fun _ _ => serotonin_baseline)
        (fun _ _ => acetylcholine_baseline)).diffuse false 500).acetylcholine_map i j
      = npClip (dopamine_baseline +
          (acetylcholine_baseline - dopamine_baseline) * Real.exp (-(500:ℝ) / decay_tau))
          0 1 := rfl
  rw [hval, harg]
  have hbody : dopamine_baseline +
      (acetylcholine_baseline - dopamine_baseline) * Real.exp (-1:ℝ)
      = 0.3 - 0.1 * Real.exp (-1) := by
    unfold dopamine_baseline acetylcholine_baseline
    ring
  have hclip : npClip (dopamine_baseline +
      (acetylcholine_baseline - dopamine_baseline) * Real.exp (-1:ℝ)) 0 1
      = 0.3 - 0.1 * Real.exp (-1) := by
    rw [hbody]
    exact npClip_eq_self _ _ _ (by nlinarith) (by nlinarith)
  rw [hclip]
  refine ⟨rfl, ?_, ?_⟩
  · unfold acetylcholine_baseline
    nlinarith
  · unfold acetylcholine_baseline
    intro hcontra
    nlinarith

/-! ## `architecture/tectum.py` — `TectalColumn` and `Tectum` (reset paths) -/

/-- State of `TectalColumn` (`tectum.py`, lines 19–35). -/
structure TectalColumn where
  position : ℝ × ℝ
  preferred_direction : ℝ
  pyramidal_neurons : List PyramidalNeuron
  interneurons : List FastSpikingInterneuron
  output_neurons : List PyramidalNeuron
  pyramidal_to_interneurons : List (List BiologicalSynapse)
  interneurons_to_output : List (List BiologicalSynapse)
  output : ℝ
  direction_selectivity : ℝ

/-- `TectalColumn.reset` (`tectum.py`, lines 72–79): only the neurons are
reset — `output`, `direction_selectivity` and the synapses are untouched. -/
def TectalColumn.reset (c : TectalColumn) : TectalColumn :=
  { c with
    pyramidal_neurons := c.pyramidal_neurons.map PyramidalNeuron.reset
    interneurons := c.interneurons.map FastSpikingInterneuron.reset
    output_neurons := c.output_neurons.map PyramidalNeuron.reset }

/-- State of `Tectum` (`tectum.py`, lines 85–99). -/
structure Tectum where
  num_columns : ℕ
  neurons_per_column : ℕ
  columns : List TectalColumn
  tectal_output : List ℝ
  dominant_direction : ℝ

/-- `Tectum.reset` (`tectum.py`, lines 141–145): the columns are reset and
`tectal_output` zeroed — `dominant_direction` is untouched. -/
def Tectum.reset (t : Tectum) : Tectum :=
  { t with
    columns := t.columns.map TectalColumn.reset
    tectal_output := List.replicate t.num_columns 0 }

theorem run_preserves_params (n : LIFNeuron) (ops : List (ℝ × ℝ)) :
    (n.run ops).rest_potential = n.rest_potential ∧
    (n.run ops).threshold = n.threshold ∧
    (n.run ops).tau_membrane = n.tau_membrane ∧
    (n.run ops).tau_refractory = n.tau_refractory ∧
    (n.run ops).max_firing_rate = n.max_firing_rate := by
  induction ops generalizing n with
  | nil => exact ⟨rfl, rfl, rfl, rfl, rfl⟩
  | cons p ops ih =>
    obtain ⟨dt, input⟩ := p
    obtain ⟨i1, i2, i3, i4, i5⟩ := LIFNeuron.integrate_preserves_params n dt input
    obtain ⟨r1, r2, r3, r4, r5⟩ := ih (n.integrate dt input)
    exact ⟨r1.trans i1, r2.trans i2, r3.trans i3, r4.trans i4, r5.trans i5⟩

/-- C9 counterexample: `reset()` does not return a
`NeurotransmitterDiffusion` instance to its freshly constructed state even
after zero operations — a fresh instance's dopamine map is all zeros
(`np.zeros`) while `reset()` fills it with the baseline `0.3`. -/
theorem diffusion_reset_differs_from_fresh :
    ((NeurotransmitterDiffusion.initState 1).reset).dopamine_map 0 0 = 0.3 ∧
    (NeurotransmitterDiffusion.initState 1).dopamine_map 0 0 = 0 ∧
    (0.3:ℝ) ≠ 0 := by
  refine ⟨rfl, rfl, by norm_num⟩

/-- C9 amended: `reset()` on a default-constructed basic `LIFNeuron`
restores exactly the fresh state after any `integrate` sequence; but (i)
`NeurotransmitterDiffusion.reset` fills every map cell with that
transmitter's baseline (`0.3`/`0.3`/`0.2`), not with the fresh all-zero
maps; (ii) `Tectum.reset` leaves `dominant_direction` at its current
value; (iii) the `reset` inherited by `FastSpikingInterneuron` leaves
`adaptation_current` and `spike_count` unchanged, and the one inherited by
`PyramidalNeuron` leaves the dendritic state unchanged. -/
theorem reset_restores_only_base_state :
    (∀ ops : List (ℝ × ℝ), (LIFNeuron.fresh.run ops).reset = LIFNeuron.fresh) ∧
    (∀ (n : ℕ) (st : NeurotransmitterDiffusion.DiffusionState n) (i j : Fin n),
      st.reset.dopamine_map i j = 0.3 ∧
      st.reset.serotonin_map i j = 0.3 ∧
      st.reset.acetylcholine_map i j = 0.2 ∧
      (NeurotransmitterDiffusion.initState n).dopamine_map i j = 0 ∧
      (NeurotransmitterDiffusion.initState n).serotonin_map i j = 0 ∧
      (NeurotransmitterDiffusion.initState n).acetylcholine_map i j = 0) ∧
    (∀ t : Tectum, t.reset.dominant_direction = t.dominant_direction ∧
      t.reset.num_columns = t.num_columns) ∧
    (∀ n : FastSpikingInterneuron,
      n.reset.adaptation_current = n.adaptation_current ∧
      n.reset.spike_count = n.spike_count) ∧
    (∀ n : PyramidalNeuron,
      n.reset.dendritic_plateau_potential = n.dendritic_plateau_potential ∧
      n.reset.basal_dendrite_input = n.basal_dendrite_input ∧
      n.reset.apical_dendrite_input = n.apical_dendrite_input) := by
  refine ⟨?_, ?_, ?_, ?_, ?_⟩
  · intro ops
    obtain ⟨hp1, hp2, hp3, hp4, hp5⟩ := run_preserves_params LIFNeuron.fresh ops
    unfold LIFNeuron.reset
    rw [hp1, hp2, hp3, hp4, hp5]
    rfl
  · intro n st i j
    exact ⟨rfl, rfl, rfl, rfl, rfl, rfl⟩
  · intro t
    exact ⟨rfl, rfl⟩
  · intro n
    exact ⟨rfl, rfl⟩
  · intro n
    exact ⟨rfl, rfl, rfl⟩
